import Mathlib

/-!
Verification of the wildlife-prediction backend.

The definitions below are a shallow embedding of the code that serves
wildlife predictions:

* the `wildlife_predictions` table rows (schema in the createTables script),
* the seed writer (src/src/database/seed.js),
* the two GET /predictions/:parkId route handlers (src/src/routes/wildlife.js
  and the variant router file),
* the hard-coded fallback table `getFallbackPredictions`.

SQL numerics (DECIMAL(3,2)) are modelled as exact rationals; JS objects built
by repeated property assignment are modelled as association lists with
JavaScript object semantics (assignment to an existing key replaces the value
in place, a fresh key is appended).  The computed lookup
predictions[parkId] on the fallback object literal consults the prototype
chain: a key naming an Object.prototype member returns the inherited member
(truthy, so the || default is skipped) — the key __proto__ yields
Object.prototype itself (serialized by JSON.stringify as an empty object)
and keys like toString yield an inherited function (dropped from the JSON
body); this is modelled by the JsValue type and the jsonData serialization.
The database query
`SELECT ... WHERE park_id = $1 ORDER BY probability DESC` is modelled as a
predicate on its possible result lists (a permutation of the matching rows
that is sorted by descending probability), because SQL leaves the relative
order of equal-probability rows unspecified.
-/

set_option maxHeartbeats 1000000

namespace BackendAI

/-- A row of the `wildlife_predictions` table.  Columns as declared in the
createTables script; `prediction_date` (TIMESTAMP, default CURRENT_TIMESTAMP)
is modelled as a natural number. -/
structure PredictionRow where
  park_id : String
  animal_type : String
  probability : Rat
  optimal_time : String
  best_location : String
  confidence : Rat
  tips : String
  prediction_date : Nat
  deriving DecidableEq, Repr

/-- The per-species value object the route handlers place in the response:
exactly the five fields probability, optimalTime, bestLocation, confidence,
tips (wildlife.js, response formatting loop). -/
structure PredictionView where
  probability : Rat
  optimalTime : String
  bestLocation : String
  confidence : Rat
  tips : String
  deriving DecidableEq, Repr

/-- The formatting applied to one row by the handlers:
probability and confidence pass through parseFloat (numbers stay numbers),
the other columns are copied. -/
def viewOf (r : PredictionRow) : PredictionView :=
  { probability := r.probability
    optimalTime := r.optimal_time
    bestLocation := r.best_location
    confidence := r.confidence
    tips := r.tips }

/-- JavaScript object property read: first binding for the key, if any. -/
def objFind (s : String) : List (String × PredictionView) → Option PredictionView
  | [] => none
  | (k, v) :: rest => if k = s then some v else objFind s rest

/-- JavaScript object property assignment: replace the value of an existing
key in place, append a fresh key at the end. -/
def objInsert (m : List (String × PredictionView)) (k : String) (v : PredictionView) :
    List (String × PredictionView) :=
  match m with
  | [] => [(k, v)]
  | (a, b) :: rest => if a = k then (k, v) :: rest else (a, b) :: objInsert rest k v

/-- The formatting loop of the handlers:
forEach over the query rows, assigning formattedPredictions[animal_type]. -/
def formatPredictions (rows : List PredictionRow) : List (String × PredictionView) :=
  rows.foldl (fun m r => objInsert m r.animal_type (viewOf r)) []

/-- Failure of the database helper (getRows rejecting). -/
inductive DbError where
  | failure (msg : String)
  deriving DecidableEq, Repr

/-- A JavaScript value resulting from the computed lookup
predictions[parkId] on the fallback object literal (followed by the ||
default): a plain data object of per-species predictions (an own property of
the literal, or the general_wildlife default), the object Object.prototype
itself (reached through the inherited key __proto__), or an inherited
function member of Object.prototype (keys such as toString or constructor). -/
inductive JsValue where
  | obj (entries : List (String × PredictionView))
  | protoObj
  | func (name : String)
  deriving DecidableEq, Repr

/-- The function-valued member names of Object.prototype: a computed lookup
predictions[k] with one of these keys returns the inherited function, which
is truthy, so the || default of the source is skipped. -/
def protoFunctionKeys : List String :=
  ["constructor", "hasOwnProperty", "isPrototypeOf", "propertyIsEnumerable",
   "toLocaleString", "toString", "valueOf", "__defineGetter__",
   "__defineSetter__", "__lookupGetter__", "__lookupSetter__"]

/-- JSON serialization of a JsValue placed in the data field of the response
body: a plain object serializes as its entry map, Object.prototype has no own
enumerable properties and serializes as the empty map, and a function value
is dropped entirely by JSON.stringify (the body carries no data field). -/
def jsonData : JsValue → Option (List (String × PredictionView))
  | .obj entries => some entries
  | .protoObj => some []
  | .func _ => none

/-- The observable HTTP responses of the prediction routes.  The data field
of a success body is the serialized value: some map (possibly empty for the
Object.prototype case) or none when JSON.stringify dropped a function. -/
inductive WResponse where
  | success (data : Option (List (String × PredictionView))) (parkId : String)
      (timestamp : String) (sourceFallback : Bool)
  | notFound (error : String) (message : String)
  | internalError (error : String) (message : String)
  deriving DecidableEq, Repr

/-- HTTP status code of a response. -/
def statusOf : WResponse → Nat
  | .success _ _ _ _ => 200
  | .notFound _ _ => 404
  | .internalError _ _ => 500

/-- The fallback lookup of src/src/routes/wildlife.js
(getFallbackPredictions): predictions[parkId] || general_wildlife-default.
An own property of the object literal (the four known parks) is returned
as-is; otherwise the lookup consults the prototype chain, so __proto__
returns Object.prototype and an Object.prototype function member name
returns that inherited function (both truthy, skipping the || default); any
other key yields undefined and the || default takes over. -/
def getFallbackPredictions (parkId : String) : JsValue :=
  if parkId = "serengeti" then
    .obj [("lions", ⟨0.85, "06:00 - 09:00", "Central Serengeti Plains", 0.92,
        "Best viewed during early morning game drives"⟩),
     ("elephants", ⟨0.78, "15:00 - 18:00", "Seronera River Valley", 0.88,
        "Look near water sources in the afternoon"⟩),
     ("wildebeest", ⟨0.95, "All day", "Migration routes (seasonal)", 0.98,
        "Migration peaks from July to October"⟩)]
  else if parkId = "manyara" then
    .obj [("tree_lions", ⟨0.70, "14:00 - 17:00", "Lake Manyara shores", 0.80,
        "Unique tree-climbing behavior in this park"⟩),
     ("elephants", ⟨0.90, "06:00 - 09:00", "Lake Manyara shores", 0.95,
        "Excellent elephant viewing year-round"⟩)]
  else if parkId = "mikumi" then
    .obj [("elephants", ⟨0.88, "06:00 - 09:00", "Mkata Plains", 0.92,
        "Large herds frequently seen on the plains"⟩),
     ("zebras", ⟨0.95, "All day", "Mkata Plains", 0.98,
        "Abundant throughout the park"⟩)]
  else if parkId = "gombe" then
    .obj [("chimpanzees", ⟨0.75, "06:00 - 10:00", "Forest trails", 0.85,
        "Requires guided forest walks"⟩)]
  else if parkId = "__proto__" then
    .protoObj
  else if parkId ∈ protoFunctionKeys then
    .func parkId
  else
    .obj [("general_wildlife", ⟨0.70, "06:00 - 10:00", "Throughout the park", 0.80,
        "Wildlife viewing is best during early morning and late afternoon"⟩)]

/-- The GET /predictions/:parkId handler of src/src/routes/wildlife.js:
the database query is wrapped in an inner try/catch, so a query failure and
the zero-row case both fall through to the fallback branch, which answers
HTTP 200 with source set to fallback and the serialized fallback lookup as
its data field. -/
def getPredictionsHandler (parkId : String) (now : String)
    (dbResult : Except DbError (List PredictionRow)) : WResponse :=
  match dbResult with
  | .ok rows =>
    if rows.length > 0 then
      .success (some (formatPredictions rows)) parkId now false
    else
      .success (jsonData (getFallbackPredictions parkId)) parkId now true
  | .error _ => .success (jsonData (getFallbackPredictions parkId)) parkId now true

/-- The GET /predictions/:parkId handler of the variant router file
(src/unnamed/part_011): zero rows answer 404, a query failure is caught by the
outer try/catch and answers 500. -/
def getPredictionsHandlerAlt (parkId : String) (now : String)
    (dbResult : Except DbError (List PredictionRow)) : WResponse :=
  match dbResult with
  | .ok rows =>
    if rows.length = 0 then
      .notFound "No predictions found"
        ("No wildlife predictions available for " ++ parkId)
    else
      .success (some (formatPredictions rows)) parkId now false
  | .error _ =>
      .internalError "Internal server error" "Failed to fetch wildlife predictions"

/-- Descending-probability order used by the query ORDER BY probability DESC. -/
def probDesc (a b : PredictionRow) : Prop := b.probability ≤ a.probability

instance : DecidableRel probDesc := fun a b =>
  inferInstanceAs (Decidable (b.probability ≤ a.probability))

/-- Characterisation of a successful result list of
SELECT ... WHERE park_id = $1 ORDER BY probability DESC: a permutation of the
rows of the table whose park_id matches, sorted by descending probability
(the relative order of equal probabilities is unspecified by SQL). -/
def dbQueryOk (db : List PredictionRow) (p : String) (q : List PredictionRow) : Prop :=
  q.Perm (db.filter (fun r => r.park_id = p)) ∧ q.Sorted probDesc

/-- The seed writer INSERT INTO wildlife_predictions ... ON CONFLICT DO
NOTHING (src/src/database/seed.js): the table has no unique constraint other
than its SERIAL primary key, so the conflict clause never fires and every
insert appends a fresh row. -/
def insertPrediction (db : List PredictionRow) (r : PredictionRow) : List PredictionRow :=
  db ++ [r]

/-- The thirteen wildlife rows written by the seed script
(prediction_date is filled by the column default; its value is irrelevant
here and is modelled as 0). -/
def seedWildlifeData : List PredictionRow :=
  [⟨"serengeti", "lions", 0.85, "06:00 - 09:00", "Central Serengeti Plains", 0.92,
      "Best viewed during early morning game drives", 0⟩,
   ⟨"serengeti", "elephants", 0.78, "15:00 - 18:00", "Seronera River Valley", 0.88,
      "Look near water sources in the afternoon", 0⟩,
   ⟨"serengeti", "wildebeest", 0.95, "All day", "Migration routes (seasonal)", 0.98,
      "Migration peaks from July to October", 0⟩,
   ⟨"serengeti", "cheetahs", 0.65, "08:00 - 11:00", "Eastern Plains", 0.75,
      "Active during cooler morning hours", 0⟩,
   ⟨"manyara", "tree_lions", 0.70, "14:00 - 17:00", "Lake Manyara shores", 0.80,
      "Unique tree-climbing behavior in this park", 0⟩,
   ⟨"manyara", "elephants", 0.90, "06:00 - 09:00", "Lake Manyara shores", 0.95,
      "Excellent elephant viewing year-round", 0⟩,
   ⟨"manyara", "flamingos", 0.85, "All day", "Lake Manyara", 0.90,
      "Best during dry season (June-October)", 0⟩,
   ⟨"mikumi", "elephants", 0.88, "06:00 - 09:00", "Mkata Plains", 0.92,
      "Large herds frequently seen on the plains", 0⟩,
   ⟨"mikumi", "zebras", 0.95, "All day", "Mkata Plains", 0.98,
      "Abundant throughout the park", 0⟩,
   ⟨"mikumi", "wildebeest", 0.82, "All day", "Mkata Plains", 0.88,
      "Often seen grazing with zebras", 0⟩,
   ⟨"gombe", "chimpanzees", 0.75, "06:00 - 10:00", "Forest trails", 0.85,
      "Requires guided forest walks", 0⟩,
   ⟨"gombe", "monkeys", 0.90, "All day", "Forest canopy", 0.95,
      "Multiple species visible throughout the day", 0⟩,
   ⟨"gombe", "birds", 0.85, "06:00 - 09:00", "Forest edges", 0.90,
      "Over 200 bird species recorded", 0⟩]

/-- Membership of a rational in the closed unit interval. -/
def unitRange (x : Rat) : Prop := 0 ≤ x ∧ x ≤ 1

instance (x : Rat) : Decidable (unitRange x) :=
  inferInstanceAs (Decidable (0 ≤ x ∧ x ≤ 1))

/-- Both numeric fields of a stored row are present and in [0,1]. -/
def rowInRange (r : PredictionRow) : Prop :=
  unitRange r.probability ∧ unitRange r.confidence

instance (r : PredictionRow) : Decidable (rowInRange r) :=
  inferInstanceAs (Decidable (unitRange r.probability ∧ unitRange r.confidence))

/-- Both numeric fields of a served prediction value are present and in [0,1]. -/
def viewInRange (v : PredictionView) : Prop :=
  unitRange v.probability ∧ unitRange v.confidence

instance (v : PredictionView) : Decidable (viewInRange v) :=
  inferInstanceAs (Decidable (unitRange v.probability ∧ unitRange v.confidence))

/-- Last element of a list satisfying a predicate (the row whose property
assignment survives the forEach overwrite loop of the handlers). -/
def lastWith (p : PredictionRow → Prop) [DecidablePred p] :
    List PredictionRow → Option PredictionRow
  | [] => none
  | r :: rest =>
    match lastWith p rest with
    | some y => some y
    | none => if p r then some r else none

/-- Modelled from the spec: state of the WeatherCache single-flight refresh
for one (location, time-bucket) key with n potential callers.  The
WeatherCache implementation (part of the Python ML service described in the
repository README documents) is not under src/; this models spec section 4.1:
a cached observation, an in-flight upstream call with its list of joined
waiters, a count of upstream provider calls, and each caller's received
observation. -/
structure SFState (n : Nat) where
  cache : Option Nat
  inflight : Bool
  waiters : List (Fin n)
  upstreamCalls : Nat
  results : Fin n → Option Nat

/-- Modelled from the spec: cold cache, no in-flight call, no upstream calls
made, no caller has a result yet. -/
def coldState (n : Nat) : SFState n :=
  { cache := none, inflight := false, waiters := [], upstreamCalls := 0,
    results := fun _ => none }

/-- Modelled from the spec: a caller arrives at the cache.  A cached value is
returned at once; otherwise the caller joins an in-flight upstream call if
one exists, and only if none exists does it start one (single upstream call
per key). -/
def sfEnter {n : Nat} (c : Fin n) (st : SFState n) : SFState n :=
  match st.cache with
  | some v => { st with results := fun d => if d = c then some v else st.results d }
  | none =>
    if st.inflight then
      { st with waiters := c :: st.waiters }
    else
      { st with inflight := true, waiters := [c],
                upstreamCalls := st.upstreamCalls + 1 }

/-- Modelled from the spec: the single upstream call returns observation v;
it is stored in the cache and every joined waiter receives the same v. -/
def sfComplete {n : Nat} (v : Nat) (st : SFState n) : SFState n :=
  { st with cache := some v, inflight := false, waiters := [],
            results := fun d => if d ∈ st.waiters then some v else st.results d }

/-- Modelled from the spec: the cold-cache concurrent-miss scenario — the
callers in order all arrive before the upstream call finishes, then the
upstream call completes with observation v. -/
def sfColdRun (n : Nat) (order : List (Fin n)) (v : Nat) : SFState n :=
  sfComplete v (order.foldl (fun st c => sfEnter c st) (coldState n))

end BackendAI

namespace BackendAI

/-! Helper lemmas about the JavaScript-object model. -/

theorem objFind_objInsert (m : List (String × PredictionView)) (k : String)
    (v : PredictionView) (s : String) :
    objFind s (objInsert m k v) = if s = k then some v else objFind s m := by
  induction m with
  | nil =>
    by_cases hsk : s = k
    · simp [objInsert, objFind, hsk]
    · have hks : ¬ k = s := fun hh => hsk hh.symm
      simp [objInsert, objFind, hsk, hks]
  | cons kv rest ih =>
    obtain ⟨a, b⟩ := kv
    by_cases hak : a = k
    · subst hak
      by_cases hsk : s = a
      · subst hsk
        simp [objInsert, objFind]
      · have has : ¬ a = s := fun hh => hsk hh.symm
        simp [objInsert, objFind, hsk, has]
    · by_cases has : a = s
      · subst has
        have hsk : ¬ a = k := hak
        simp [objInsert, objFind, hak, hsk]
      · simp [objInsert, objFind, hak, has, ih]

theorem objFind_foldl (rows : List PredictionRow) (m : List (String × PredictionView))
    (s : String) :
    objFind s (rows.foldl (fun acc r => objInsert acc r.animal_type (viewOf r)) m) =
      (lastWith (fun r => r.animal_type = s) rows).elim (objFind s m)
        (fun y => some (viewOf y)) := by
  induction rows generalizing m with
  | nil => simp [lastWith]
  | cons r rest ih =>
    simp only [List.foldl_cons]
    rw [ih]
    cases h : lastWith (fun x => x.animal_type = s) rest with
    | some y => simp [lastWith, h]
    | none =>
      simp only [lastWith, h]
      by_cases hrs : r.animal_type = s
      · simp [hrs, objFind_objInsert]
      · have hsr : ¬ s = r.animal_type := fun hh => hrs hh.symm
        simp [hrs, hsr, objFind_objInsert]

theorem lastWith_mem {p : PredictionRow → Prop} [DecidablePred p]
    {l : List PredictionRow} {y : PredictionRow} (h : lastWith p l = some y) :
    y ∈ l ∧ p y := by
  induction l with
  | nil => simp [lastWith] at h
  | cons r rest ih =>
    simp only [lastWith] at h
    cases hrest : lastWith p rest with
    | some z =>
      rw [hrest] at h
      simp only [Option.some.injEq] at h
      subst h
      obtain ⟨h1, h2⟩ := ih hrest
      exact ⟨List.mem_cons_of_mem r h1, h2⟩
    | none =>
      rw [hrest] at h
      by_cases hp : p r
      · rw [if_pos hp] at h
        simp only [Option.some.injEq] at h
        subst h
        exact ⟨List.mem_cons_self r rest, hp⟩
      · rw [if_neg hp] at h
        simp at h

theorem lastWith_none {p : PredictionRow → Prop} [DecidablePred p]
    {l : List PredictionRow} (h : lastWith p l = none) : ∀ x ∈ l, ¬ p x := by
  induction l with
  | nil => simp
  | cons r rest ih =>
    simp only [lastWith] at h
    cases hrest : lastWith p rest with
    | some z =>
      rw [hrest] at h
      simp at h
    | none =>
      rw [hrest] at h
      by_cases hp : p r
      · rw [if_pos hp] at h
        simp at h
      · intro x hx
        rcases List.mem_cons.mp hx with h1 | h2
        · subst h1
          exact hp
        · exact ih hrest x h2

theorem lastWith_isSome {p : PredictionRow → Prop} [DecidablePred p]
    {l : List PredictionRow} {x : PredictionRow} (hx : x ∈ l) (hpx : p x) :
    ∃ y, lastWith p l = some y := by
  cases h : lastWith p l with
  | some y => exact ⟨y, rfl⟩
  | none => exact absurd hpx (lastWith_none h x hx)

theorem lastWith_min {p : PredictionRow → Prop} [DecidablePred p]
    {l : List PredictionRow} (hs : l.Sorted probDesc) {y : PredictionRow}
    (h : lastWith p l = some y) :
    ∀ x ∈ l, p x → y.probability ≤ x.probability := by
  induction l with
  | nil => simp [lastWith] at h
  | cons r rest ih =>
    rw [List.sorted_cons] at hs
    obtain ⟨hr, hrest⟩ := hs
    simp only [lastWith] at h
    cases hlast : lastWith p rest with
    | some z =>
      rw [hlast] at h
      simp only [Option.some.injEq] at h
      subst h
      intro x hx hpx
      rcases List.mem_cons.mp hx with h1 | h2
      · subst h1
        obtain ⟨hzmem, _⟩ := lastWith_mem hlast
        exact hr z hzmem
      · exact ih hrest hlast x h2 hpx
    | none =>
      rw [hlast] at h
      by_cases hp : p r
      · rw [if_pos hp] at h
        simp only [Option.some.injEq] at h
        subst h
        intro x hx hpx
        rcases List.mem_cons.mp hx with h1 | h2
        · subst h1
          exact le_refl _
        · exact absurd hpx (lastWith_none hlast x h2)
      · rw [if_neg hp] at h
        simp at h

theorem lastWith_of_pairwise_unique {l : List PredictionRow}
    (hu : l.Pairwise (fun a b => a.animal_type ≠ b.animal_type))
    {r : PredictionRow} (hr : r ∈ l) :
    lastWith (fun x => x.animal_type = r.animal_type) l = some r := by
  induction l with
  | nil => simp at hr
  | cons a rest ih =>
    rw [List.pairwise_cons] at hu
    obtain ⟨ha, hrest⟩ := hu
    rcases List.mem_cons.mp hr with h1 | h2
    · subst h1
      have hnone : lastWith (fun x => x.animal_type = r.animal_type) rest = none := by
        cases h : lastWith (fun x => x.animal_type = r.animal_type) rest with
        | none => rfl
        | some z =>
          obtain ⟨hz1, hz2⟩ := lastWith_mem h
          exact absurd hz2.symm (ha z hz1)
      simp [lastWith, hnone]
    · have hlast := ih hrest h2
      simp only [lastWith, hlast]

/-! Claim theorems. -/

theorem jsonData_fallback_nonempty (p : String) (hp : p ≠ "__proto__")
    (hf : p ∉ protoFunctionKeys) :
    ∃ entries, entries ≠ [] ∧
      jsonData (getFallbackPredictions p) = some entries := by
  unfold getFallbackPredictions
  by_cases h1 : p = "serengeti"
  · rw [if_pos h1]
    exact ⟨_, by simp, rfl⟩
  · rw [if_neg h1]
    by_cases h2 : p = "manyara"
    · rw [if_pos h2]
      exact ⟨_, by simp, rfl⟩
    · rw [if_neg h2]
      by_cases h3 : p = "mikumi"
      · rw [if_pos h3]
        exact ⟨_, by simp, rfl⟩
      · rw [if_neg h3]
        by_cases h4 : p = "gombe"
        · rw [if_pos h4]
          exact ⟨_, by simp, rfl⟩
        · rw [if_neg h4, if_neg hp, if_neg hf]
          exact ⟨_, by simp, rfl⟩

/-- Claim C1 counterexample: on a durable-store failure with park id
toString, the fallback lookup hits the inherited Object.prototype.toString
function, so the 200 response with fallback provenance carries no
synthesized fallback prediction set at all — JSON.stringify drops the
function-valued data field. -/
theorem db_failure_prototype_counterexample :
    getPredictionsHandler "toString" "t9" (.error (.failure "down")) =
      .success none "toString" "t9" true ∧
    statusOf (getPredictionsHandler "toString" "t9" (.error (.failure "down"))) = 200 :=
  ⟨rfl, rfl⟩

/-- Claim C1 (amended): a failure of the durable store is never propagated as
an error: the handler always catches it and completes with HTTP 200 and
fallback provenance, the data field being the serialized fallback lookup;
whenever the park id is not an Object.prototype member name that lookup is a
non-empty synthesized fallback prediction set, while for prototype member
ids the data field is the inherited prototype value (empty for __proto__,
absent for function members) instead of a prediction set. -/
theorem db_failure_caught_with_fallback (parkId now : String) (e : DbError) :
    getPredictionsHandler parkId now (.error e) =
      .success (jsonData (getFallbackPredictions parkId)) parkId now true ∧
    statusOf (getPredictionsHandler parkId now (.error e)) = 200 ∧
    (parkId ≠ "__proto__" → parkId ∉ protoFunctionKeys →
      ∃ entries, entries ≠ [] ∧
        getPredictionsHandler parkId now (.error e) =
          .success (some entries) parkId now true) := by
  refine ⟨rfl, rfl, ?_⟩
  intro hp hf
  obtain ⟨entries, hne, hsome⟩ := jsonData_fallback_nonempty parkId hp hf
  exact ⟨entries, hne, by rw [show getPredictionsHandler parkId now (.error e) =
    .success (jsonData (getFallbackPredictions parkId)) parkId now true from rfl, hsome]⟩

/-- Claim C1 witness: a concrete failure for a park id outside the prototype
member names. -/
theorem db_failure_caught_with_fallback_witness :
    getPredictionsHandler "mikumi" "t10" (.error (.failure "down")) =
      .success (jsonData (getFallbackPredictions "mikumi")) "mikumi" "t10" true ∧
    ∃ entries, entries ≠ [] ∧
      getPredictionsHandler "mikumi" "t10" (.error (.failure "down")) =
        .success (some entries) "mikumi" "t10" true :=
  ⟨(db_failure_caught_with_fallback "mikumi" "t10" (.failure "down")).1,
   (db_failure_caught_with_fallback "mikumi" "t10" (.failure "down")).2.2
     (by decide) (by decide)⟩

/-- Claim C2: for a park with at least one stored prediction row (and one row
per species), the handler answers the success body whose data maps each
species name to exactly the object with fields probability, confidence,
optimalTime, bestLocation and tips copied from the stored row of that
species. -/
theorem predictions_success_body (parkId now : String) (rows : List PredictionRow)
    (hne : rows ≠ [])
    (hu : rows.Pairwise (fun a b => a.animal_type ≠ b.animal_type)) :
    getPredictionsHandler parkId now (.ok rows) =
      .success (some (formatPredictions rows)) parkId now false ∧
    ∀ r ∈ rows, objFind r.animal_type (formatPredictions rows) =
      some ⟨r.probability, r.optimal_time, r.best_location, r.confidence, r.tips⟩ := by
  constructor
  · match rows with
    | [] => exact absurd rfl hne
    | x :: l => simp [getPredictionsHandler]
  · intro r hr
    have hlast := lastWith_of_pairwise_unique hu hr
    unfold formatPredictions
    rw [objFind_foldl, hlast]
    rfl

/-- Claim C2 witness: a concrete one-row store for mikumi. -/
theorem predictions_success_body_witness :
    getPredictionsHandler "mikumi" "t4"
        (.ok [⟨"mikumi", "zebras", 0.95, "All day", "Mkata Plains", 0.98,
          "Abundant throughout the park", 7⟩]) =
      .success (some (formatPredictions [⟨"mikumi", "zebras", 0.95, "All day",
          "Mkata Plains", 0.98, "Abundant throughout the park", 7⟩]))
        "mikumi" "t4" false ∧
    ∀ r ∈ [(⟨"mikumi", "zebras", 0.95, "All day", "Mkata Plains", 0.98,
          "Abundant throughout the park", 7⟩ : PredictionRow)],
      objFind r.animal_type (formatPredictions [⟨"mikumi", "zebras", 0.95, "All day",
          "Mkata Plains", 0.98, "Abundant throughout the park", 7⟩]) =
        some ⟨r.probability, r.optimal_time, r.best_location, r.confidence, r.tips⟩ :=
  predictions_success_body "mikumi" "t4" _ (by simp) (by simp)

/-- Claim C6: for each of the four known parks, an empty store makes the
handler fall back to the static per-species prior: the response is exactly
the hard-coded table entry of that park, served with HTTP 200 (the caller is
never blocked or given an error). -/
theorem known_parks_static_prior (now : String) :
    (getPredictionsHandler "serengeti" now (.ok []) =
       .success (some [("lions", ⟨0.85, "06:00 - 09:00", "Central Serengeti Plains", 0.92,
           "Best viewed during early morning game drives"⟩),
         ("elephants", ⟨0.78, "15:00 - 18:00", "Seronera River Valley", 0.88,
           "Look near water sources in the afternoon"⟩),
         ("wildebeest", ⟨0.95, "All day", "Migration routes (seasonal)", 0.98,
           "Migration peaks from July to October"⟩)]) "serengeti" now true ∧
     statusOf (getPredictionsHandler "serengeti" now (.ok [])) = 200) ∧
    (getPredictionsHandler "manyara" now (.ok []) =
       .success (some [("tree_lions", ⟨0.70, "14:00 - 17:00", "Lake Manyara shores", 0.80,
           "Unique tree-climbing behavior in this park"⟩),
         ("elephants", ⟨0.90, "06:00 - 09:00", "Lake Manyara shores", 0.95,
           "Excellent elephant viewing year-round"⟩)]) "manyara" now true ∧
     statusOf (getPredictionsHandler "manyara" now (.ok [])) = 200) ∧
    (getPredictionsHandler "mikumi" now (.ok []) =
       .success (some [("elephants", ⟨0.88, "06:00 - 09:00", "Mkata Plains", 0.92,
           "Large herds frequently seen on the plains"⟩),
         ("zebras", ⟨0.95, "All day", "Mkata Plains", 0.98,
           "Abundant throughout the park"⟩)]) "mikumi" now true ∧
     statusOf (getPredictionsHandler "mikumi" now (.ok [])) = 200) ∧
    (getPredictionsHandler "gombe" now (.ok []) =
       .success (some [("chimpanzees", ⟨0.75, "06:00 - 10:00", "Forest trails", 0.85,
           "Requires guided forest walks"⟩)]) "gombe" now true ∧
     statusOf (getPredictionsHandler "gombe" now (.ok [])) = 200) :=
  ⟨⟨rfl, rfl⟩, ⟨rfl, rfl⟩, ⟨rfl, rfl⟩, ⟨rfl, rfl⟩⟩

/-- Claim C4 counterexample: a park outside the four known ones, with no
stored predictions, is answered HTTP 200 with the hard-coded
general_wildlife entry of probability 0.70 — a default non-zero probability,
not an explicit prediction-unavailable result. -/
theorem unknown_park_counterexample :
    getPredictionsHandler "tarangire" "t0" (.ok []) =
      .success (some [("general_wildlife", ⟨0.70, "06:00 - 10:00", "Throughout the park",
          0.80, "Wildlife viewing is best during early morning and late afternoon"⟩)])
        "tarangire" "t0" true ∧
    statusOf (getPredictionsHandler "tarangire" "t0" (.ok [])) = 200 ∧
    (0 : Rat) < 0.70 :=
  ⟨rfl, rfl, by norm_num⟩

/-- Claim C4 (amended): a prediction request for a park with no stored
predictions and no per-park fallback entry is never answered with an
explicit prediction-unavailable result: it always completes with HTTP 200
and fallback provenance.  An id that is not an Object.prototype member name
gets the single generic general_wildlife entry of probability 0.70; a
prototype member id gets the inherited prototype value instead (an empty
data map for __proto__, no data field for a function member such as
toString) — still never an unavailable result. -/
theorem unknown_park_general_fallback (p now : String)
    (h1 : p ≠ "serengeti") (h2 : p ≠ "manyara") (h3 : p ≠ "mikumi") (h4 : p ≠ "gombe") :
    statusOf (getPredictionsHandler p now (.ok [])) = 200 ∧
    (p ≠ "__proto__" → p ∉ protoFunctionKeys →
      getPredictionsHandler p now (.ok []) =
        .success (some [("general_wildlife", ⟨0.70, "06:00 - 10:00", "Throughout the park",
            0.80, "Wildlife viewing is best during early morning and late afternoon"⟩)])
          p now true) ∧
    getPredictionsHandler "__proto__" now (.ok []) =
      .success (some []) "__proto__" now true ∧
    getPredictionsHandler "toString" now (.ok []) =
      .success none "toString" now true := by
  refine ⟨rfl, ?_, rfl, rfl⟩
  intro hp hf
  unfold getPredictionsHandler
  simp [getFallbackPredictions, jsonData, h1, h2, h3, h4, hp, hf]

/-- Claim C4 witness: a concrete unknown park id outside the prototype
member names. -/
theorem unknown_park_general_fallback_witness :
    getPredictionsHandler "nyerere" "t1" (.ok []) =
      .success (some [("general_wildlife", ⟨0.70, "06:00 - 10:00", "Throughout the park",
          0.80, "Wildlife viewing is best during early morning and late afternoon"⟩)])
        "nyerere" "t1" true :=
  (unknown_park_general_fallback "nyerere" "t1" (by decide) (by decide) (by decide)
    (by decide)).2.1 (by decide) (by decide)

/-- Claim C8 counterexample: on a successful query returning zero rows, the
two handlers for GET /predictions/:parkId disagree — the wildlife.js handler
answers 200 with the fallback body, the variant answers 404. -/
theorem handlers_disagree_on_zero_rows :
    statusOf (getPredictionsHandler "serengeti" "t2" (.ok [])) = 200 ∧
    statusOf (getPredictionsHandlerAlt "serengeti" "t2" (.ok [])) = 404 ∧
    getPredictionsHandler "serengeti" "t2" (.ok []) ≠
      getPredictionsHandlerAlt "serengeti" "t2" (.ok []) :=
  ⟨rfl, rfl, by decide⟩

/-- Claim C8 (amended): the two handlers agree exactly when the query
succeeds with at least one row; on a successful query with zero rows they
answer 200 with the fallback body versus 404, and on a query failure 200
with the fallback body versus 500. -/
theorem handlers_agree_iff_nonempty (p now : String) :
    (∀ rows : List PredictionRow, rows ≠ [] →
       getPredictionsHandler p now (.ok rows) = getPredictionsHandlerAlt p now (.ok rows)) ∧
    (statusOf (getPredictionsHandler p now (.ok [])) = 200 ∧
     statusOf (getPredictionsHandlerAlt p now (.ok [])) = 404) ∧
    (∀ e : DbError, statusOf (getPredictionsHandler p now (.error e)) = 200 ∧
       statusOf (getPredictionsHandlerAlt p now (.error e)) = 500) := by
  refine ⟨?_, ⟨rfl, rfl⟩, fun e => ⟨rfl, rfl⟩⟩
  intro rows h
  match rows with
  | [] => exact absurd rfl h
  | r :: rest => simp [getPredictionsHandler, getPredictionsHandlerAlt]

/-- Claim C8 witness: the handlers agree on a concrete one-row result. -/
theorem handlers_agree_iff_nonempty_witness :
    getPredictionsHandler "serengeti" "t3"
        (.ok [⟨"serengeti", "lions", 0.85, "06:00 - 09:00", "Central Serengeti Plains",
          0.92, "Best viewed during early morning game drives", 3⟩]) =
      getPredictionsHandlerAlt "serengeti" "t3"
        (.ok [⟨"serengeti", "lions", 0.85, "06:00 - 09:00", "Central Serengeti Plains",
          0.92, "Best viewed during early morning game drives", 3⟩]) :=
  (handlers_agree_iff_nonempty "serengeti" "t3").1 _ (by simp)

/-- Claim C10 counterexample: the park ids __proto__ and toString reach the
prototype chain of the object literal — the first returns Object.prototype,
whose JSON serialization is the empty map, and the second returns the
inherited toString function, which serializes to no map at all; neither is a
non-empty map of species predictions, refuting the claimed totality. -/
theorem fallback_prototype_counterexample :
    getFallbackPredictions "__proto__" = .protoObj ∧
    jsonData (getFallbackPredictions "__proto__") = some [] ∧
    getFallbackPredictions "toString" = .func "toString" ∧
    jsonData (getFallbackPredictions "toString") = none :=
  ⟨rfl, rfl, rfl, rfl⟩

/-- Claim C10 (amended): getFallbackPredictions is total and deterministic in
the park id alone, with no dependence on time, randomness or external state;
every plain data object it returns is a non-empty species map, and every id
outside the four known parks that is not an Object.prototype member name
gets exactly the general_wildlife entry — but a prototype member id returns
the inherited prototype value (Object.prototype for __proto__, an inherited
function otherwise), not a species map. -/
theorem fallback_deterministic_own_keys (p : String) :
    getFallbackPredictions p = getFallbackPredictions p ∧
    (∀ entries, getFallbackPredictions p = .obj entries → entries ≠ []) ∧
    (p ≠ "serengeti" → p ≠ "manyara" → p ≠ "mikumi" → p ≠ "gombe" →
     p ≠ "__proto__" → p ∉ protoFunctionKeys →
      getFallbackPredictions p = .obj [("general_wildlife", ⟨0.70, "06:00 - 10:00",
        "Throughout the park", 0.80,
        "Wildlife viewing is best during early morning and late afternoon"⟩)]) := by
  refine ⟨rfl, ?_, ?_⟩
  · intro entries he
    unfold getFallbackPredictions at he
    by_cases h1 : p = "serengeti"
    · rw [if_pos h1] at he
      simp only [JsValue.obj.injEq] at he
      subst he
      simp
    · rw [if_neg h1] at he
      by_cases h2 : p = "manyara"
      · rw [if_pos h2] at he
        simp only [JsValue.obj.injEq] at he
        subst he
        simp
      · rw [if_neg h2] at he
        by_cases h3 : p = "mikumi"
        · rw [if_pos h3] at he
          simp only [JsValue.obj.injEq] at he
          subst he
          simp
        · rw [if_neg h3] at he
          by_cases h4 : p = "gombe"
          · rw [if_pos h4] at he
            simp only [JsValue.obj.injEq] at he
            subst he
            simp
          · rw [if_neg h4] at he
            by_cases hp : p = "__proto__"
            · rw [if_pos hp] at he
              simp at he
            · rw [if_neg hp] at he
              by_cases hf : p ∈ protoFunctionKeys
              · rw [if_pos hf] at he
                simp at he
              · rw [if_neg hf] at he
                simp only [JsValue.obj.injEq] at he
                subst he
                simp
  · intro h1 h2 h3 h4 hp hf
    unfold getFallbackPredictions
    rw [if_neg h1, if_neg h2, if_neg h3, if_neg h4, if_neg hp, if_neg hf]

/-- Claim C10 witness: a concrete park id outside the four known parks and
the prototype member names. -/
theorem fallback_deterministic_own_keys_witness :
    getFallbackPredictions "ruaha" = .obj [("general_wildlife", ⟨0.70, "06:00 - 10:00",
      "Throughout the park", 0.80,
      "Wildlife viewing is best during early morning and late afternoon"⟩)] :=
  (fallback_deterministic_own_keys "ruaha").2.2 (by decide) (by decide) (by decide)
    (by decide) (by decide) (by decide)

/-- Claim C9: the table admits several rows for one (park, species); the
handler collapses them by successive overwriting in probability-descending
iteration order, so the entry served for a duplicated species is a
minimal-probability row among its duplicates. -/
theorem duplicate_species_entry_min_probability (db : List PredictionRow)
    (p s : String) (q : List PredictionRow) (hq : dbQueryOk db p q)
    (hex : ∃ r ∈ db, r.park_id = p ∧ r.animal_type = s) :
    ∃ y ∈ db, y.park_id = p ∧ y.animal_type = s ∧
      objFind s (formatPredictions q) = some (viewOf y) ∧
      ∀ x ∈ db, x.park_id = p → x.animal_type = s →
        y.probability ≤ x.probability := by
  obtain ⟨hperm, hsort⟩ := hq
  obtain ⟨r, hrdb, hrp, hrs⟩ := hex
  have hrq : r ∈ q := hperm.mem_iff.mpr (List.mem_filter.mpr ⟨hrdb, by simp [hrp]⟩)
  obtain ⟨y, hy⟩ := lastWith_isSome (p := fun x => x.animal_type = s) hrq hrs
  obtain ⟨hyq, hys⟩ := lastWith_mem hy
  have hyfilter := hperm.mem_iff.mp hyq
  have hydb : y ∈ db := (List.mem_filter.mp hyfilter).1
  have hyp : y.park_id = p := by
    have h2 := (List.mem_filter.mp hyfilter).2
    simpa using h2
  refine ⟨y, hydb, hyp, hys, ?_, ?_⟩
  · unfold formatPredictions
    rw [objFind_foldl, hy]
    rfl
  · intro x hx hxp hxs
    have hxq : x ∈ q := hperm.mem_iff.mpr (List.mem_filter.mpr ⟨hx, by simp [hxp]⟩)
    exact lastWith_min hsort hy x hxq hxs

/-- Claim C9 witness: two stored rows for (mikumi, elephants); the served
entry is the lower-probability one. -/
theorem duplicate_species_entry_min_probability_witness :
    ∃ y ∈ [(⟨"mikumi", "elephants", 0.9, "am", "Mkata Plains", 0.9, "t", 5⟩ : PredictionRow),
           ⟨"mikumi", "elephants", 0.5, "pm", "Mkata Plains", 0.8, "u", 3⟩],
      y.park_id = "mikumi" ∧ y.animal_type = "elephants" ∧
      objFind "elephants" (formatPredictions
        [⟨"mikumi", "elephants", 0.9, "am", "Mkata Plains", 0.9, "t", 5⟩,
         ⟨"mikumi", "elephants", 0.5, "pm", "Mkata Plains", 0.8, "u", 3⟩]) =
        some (viewOf y) ∧
      ∀ x ∈ [(⟨"mikumi", "elephants", 0.9, "am", "Mkata Plains", 0.9, "t", 5⟩ : PredictionRow),
             ⟨"mikumi", "elephants", 0.5, "pm", "Mkata Plains", 0.8, "u", 3⟩],
        x.park_id = "mikumi" → x.animal_type = "elephants" →
          y.probability ≤ x.probability := by
  refine duplicate_species_entry_min_probability _ "mikumi" "elephants"
    [⟨"mikumi", "elephants", 0.9, "am", "Mkata Plains", 0.9, "t", 5⟩,
     ⟨"mikumi", "elephants", 0.5, "pm", "Mkata Plains", 0.8, "u", 3⟩]
    ⟨?_, ?_⟩ ?_
  · simp
  · norm_num [List.sorted_cons, probDesc]
  · exact ⟨⟨"mikumi", "elephants", 0.9, "am", "Mkata Plains", 0.9, "t", 5⟩,
      List.mem_cons_self _ _, rfl, rfl⟩

/-- Claim C3 counterexample: two writes for (mikumi, elephants) where the
second write carries an older generation timestamp (3 versus 5).  The insert
appends unconditionally, and the entry the handler then serves for the key is
the second (older, lower-probability) row — the older-timestamp write did not
leave the served entry unchanged. -/
theorem upsert_not_last_writer_wins :
    (⟨"mikumi", "elephants", 0.5, "pm", "Mkata Plains", 0.8, "u", 3⟩ :
        PredictionRow).prediction_date ≤
      (⟨"mikumi", "elephants", 0.9, "am", "Mkata Plains", 0.9, "t", 5⟩ :
        PredictionRow).prediction_date ∧
    dbQueryOk (insertPrediction (insertPrediction []
        ⟨"mikumi", "elephants", 0.9, "am", "Mkata Plains", 0.9, "t", 5⟩)
        ⟨"mikumi", "elephants", 0.5, "pm", "Mkata Plains", 0.8, "u", 3⟩)
      "mikumi"
      [⟨"mikumi", "elephants", 0.9, "am", "Mkata Plains", 0.9, "t", 5⟩,
       ⟨"mikumi", "elephants", 0.5, "pm", "Mkata Plains", 0.8, "u", 3⟩] ∧
    objFind "elephants" (formatPredictions
      [⟨"mikumi", "elephants", 0.9, "am", "Mkata Plains", 0.9, "t", 5⟩,
       ⟨"mikumi", "elephants", 0.5, "pm", "Mkata Plains", 0.8, "u", 3⟩]) =
      some (viewOf ⟨"mikumi", "elephants", 0.5, "pm", "Mkata Plains", 0.8, "u", 3⟩) ∧
    viewOf (⟨"mikumi", "elephants", 0.5, "pm", "Mkata Plains", 0.8, "u", 3⟩ :
        PredictionRow) ≠
      viewOf ⟨"mikumi", "elephants", 0.9, "am", "Mkata Plains", 0.9, "t", 5⟩ := by
  refine ⟨by decide, ⟨?_, ?_⟩, ?_, ?_⟩
  · simp [insertPrediction]
  · norm_num [insertPrediction, List.sorted_cons, probDesc]
  · rfl
  · simp [viewOf]

/-- Claim C3 (amended): a write to the store is an unconditional append (the
ON CONFLICT DO NOTHING clause has no unique constraint on (park, species) to
fire on), so both rows are kept, and the entry subsequently served for the
key is the lower-probability row independently of the generation timestamps —
in particular a second write with an older or equal timestamp still replaces
the served entry whenever its probability is lower. -/
theorem insert_appends_and_min_probability_wins (r1 r2 : PredictionRow)
    (q : List PredictionRow) (hpark : r2.park_id = r1.park_id)
    (hspec : r2.animal_type = r1.animal_type)
    (hprob : r2.probability < r1.probability)
    (hq : dbQueryOk (insertPrediction (insertPrediction [] r1) r2) r1.park_id q) :
    insertPrediction (insertPrediction [] r1) r2 = [r1, r2] ∧
    objFind r1.animal_type (formatPredictions q) = some (viewOf r2) := by
  refine ⟨rfl, ?_⟩
  obtain ⟨hperm, hsort⟩ := hq
  have hfilter : (insertPrediction (insertPrediction [] r1) r2).filter
      (fun r => decide (r.park_id = r1.park_id)) = [r1, r2] := by
    simp [insertPrediction, hpark]
  rw [hfilter] at hperm
  have hr2q : r2 ∈ q := hperm.mem_iff.mpr (by simp)
  obtain ⟨y, hy⟩ := lastWith_isSome (p := fun x => x.animal_type = r1.animal_type)
    hr2q hspec
  obtain ⟨hyq, hys⟩ := lastWith_mem hy
  have hymem : y ∈ [r1, r2] := hperm.mem_iff.mp hyq
  have hmin : y.probability ≤ r2.probability := lastWith_min hsort hy r2 hr2q hspec
  have hy2 : y = r2 := by
    rcases List.mem_cons.mp hymem with h | h
    · exact absurd (h ▸ hmin) (not_le.mpr hprob)
    · simpa using h
  subst hy2
  unfold formatPredictions
  rw [objFind_foldl, hy]
  rfl

/-- Claim C3 witness: concrete out-of-order writes for (mikumi, elephants). -/
theorem insert_appends_and_min_probability_wins_witness :
    insertPrediction (insertPrediction []
        ⟨"mikumi", "elephants", 0.9, "am", "Mkata Plains", 0.9, "t", 5⟩)
        ⟨"mikumi", "elephants", 0.5, "pm", "Mkata Plains", 0.8, "u", 3⟩ =
      [⟨"mikumi", "elephants", 0.9, "am", "Mkata Plains", 0.9, "t", 5⟩,
       ⟨"mikumi", "elephants", 0.5, "pm", "Mkata Plains", 0.8, "u", 3⟩] ∧
    objFind "elephants" (formatPredictions
      [⟨"mikumi", "elephants", 0.9, "am", "Mkata Plains", 0.9, "t", 5⟩,
       ⟨"mikumi", "elephants", 0.5, "pm", "Mkata Plains", 0.8, "u", 3⟩]) =
      some (viewOf ⟨"mikumi", "elephants", 0.5, "pm", "Mkata Plains", 0.8, "u", 3⟩) := by
  refine insert_appends_and_min_probability_wins
    ⟨"mikumi", "elephants", 0.9, "am", "Mkata Plains", 0.9, "t", 5⟩
    ⟨"mikumi", "elephants", 0.5, "pm", "Mkata Plains", 0.8, "u", 3⟩
    [⟨"mikumi", "elephants", 0.9, "am", "Mkata Plains", 0.9, "t", 5⟩,
     ⟨"mikumi", "elephants", 0.5, "pm", "Mkata Plains", 0.8, "u", 3⟩]
    rfl rfl ?_ ⟨?_, ?_⟩
  · norm_num
  · simp [insertPrediction]
  · norm_num [insertPrediction, List.sorted_cons, probDesc]

theorem mem_objInsert {m : List (String × PredictionView)} {k : String}
    {v : PredictionView} {e : String × PredictionView} (he : e ∈ objInsert m k v) :
    e ∈ m ∨ e = (k, v) := by
  induction m with
  | nil =>
    simp only [objInsert] at he
    right
    simpa using he
  | cons kv rest ih =>
    obtain ⟨a, b⟩ := kv
    by_cases hak : a = k
    · simp only [objInsert, if_pos hak] at he
      rcases List.mem_cons.mp he with h | h
      · right
        exact h
      · left
        exact List.mem_cons_of_mem _ h
    · simp only [objInsert, if_neg hak] at he
      rcases List.mem_cons.mp he with h | h
      · left
        rw [h]
        exact List.mem_cons_self _ _
      · rcases ih h with h2 | h2
        · left
          exact List.mem_cons_of_mem _ h2
        · right
          exact h2

theorem mem_formatFold {rows : List PredictionRow}
    {m : List (String × PredictionView)} {e : String × PredictionView}
    (he : e ∈ rows.foldl (fun acc r => objInsert acc r.animal_type (viewOf r)) m) :
    e ∈ m ∨ ∃ r ∈ rows, e = (r.animal_type, viewOf r) := by
  induction rows generalizing m with
  | nil =>
    left
    simpa using he
  | cons r rest ih =>
    simp only [List.foldl_cons] at he
    rcases ih he with h | h
    · rcases mem_objInsert h with h2 | h2
      · left
        exact h2
      · right
        exact ⟨r, List.mem_cons_self _ _, h2⟩
    · obtain ⟨x, hx, hex⟩ := h
      right
      exact ⟨x, List.mem_cons_of_mem _ hx, hex⟩

/-- Claim C5: every prediction value the repository produces or stores has
probability and confidence both present and in the closed interval [0,1]:
all thirteen seed rows, every entry of the fallback table for every park id,
and every value the handler formats from a store whose rows satisfy the
invariant. -/
theorem prediction_values_unit_range :
    (∀ r ∈ seedWildlifeData, rowInRange r) ∧
    (∀ p : String, ∀ entries, jsonData (getFallbackPredictions p) = some entries →
       ∀ e ∈ entries, viewInRange e.2) ∧
    (∀ rows : List PredictionRow, (∀ r ∈ rows, rowInRange r) →
       ∀ e ∈ formatPredictions rows, viewInRange e.2) := by
  refine ⟨?_, ?_, ?_⟩
  · intro r hr
    fin_cases hr <;> norm_num [rowInRange, unitRange]
  · intro p entries he e hee
    unfold getFallbackPredictions at he
    by_cases h1 : p = "serengeti"
    · rw [if_pos h1] at he
      simp only [jsonData, Option.some.injEq] at he
      subst he
      fin_cases hee <;> norm_num [viewInRange, unitRange]
    · rw [if_neg h1] at he
      by_cases h2 : p = "manyara"
      · rw [if_pos h2] at he
        simp only [jsonData, Option.some.injEq] at he
        subst he
        fin_cases hee <;> norm_num [viewInRange, unitRange]
      · rw [if_neg h2] at he
        by_cases h3 : p = "mikumi"
        · rw [if_pos h3] at he
          simp only [jsonData, Option.some.injEq] at he
          subst he
          fin_cases hee <;> norm_num [viewInRange, unitRange]
        · rw [if_neg h3] at he
          by_cases h4 : p = "gombe"
          · rw [if_pos h4] at he
            simp only [jsonData, Option.some.injEq] at he
            subst he
            fin_cases hee
            norm_num [viewInRange, unitRange]
          · rw [if_neg h4] at he
            by_cases hp : p = "__proto__"
            · rw [if_pos hp] at he
              simp only [jsonData, Option.some.injEq] at he
              subst he
              simp at hee
            · rw [if_neg hp] at he
              by_cases hf : p ∈ protoFunctionKeys
              · rw [if_pos hf] at he
                simp [jsonData] at he
              · rw [if_neg hf] at he
                simp only [jsonData, Option.some.injEq] at he
                subst he
                fin_cases hee
                norm_num [viewInRange, unitRange]
  · intro rows h e he
    simp only [formatPredictions] at he
    rcases mem_formatFold he with h0 | ⟨r, hr, her⟩
    · simp at h0
    · have h3 := h r hr
      simp only [rowInRange] at h3
      rw [her]
      simp only [viewInRange, viewOf]
      exact h3

/-- Claim C5 witness: a concrete in-range store served by the handler. -/
theorem prediction_values_unit_range_witness :
    viewInRange (⟨0.95, "All day", "Mkata Plains", 0.98,
      "Abundant throughout the park"⟩ : PredictionView) :=
  prediction_values_unit_range.2.2
    [⟨"mikumi", "zebras", 0.95, "All day", "Mkata Plains", 0.98,
      "Abundant throughout the park", 7⟩]
    (by
      intro r hr
      fin_cases hr
      norm_num [rowInRange, unitRange])
    ("zebras", ⟨0.95, "All day", "Mkata Plains", 0.98, "Abundant throughout the park"⟩)
    (by simp [formatPredictions, objInsert, viewOf])

theorem sfEnter_fold_inv (n : Nat) (order : List (Fin n)) (st : SFState n)
    (hc : st.cache = none) (hf : st.inflight = true) :
    (order.foldl (fun s c => sfEnter c s) st).cache = none ∧
    (order.foldl (fun s c => sfEnter c s) st).inflight = true ∧
    (order.foldl (fun s c => sfEnter c s) st).upstreamCalls = st.upstreamCalls ∧
    (order.foldl (fun s c => sfEnter c s) st).results = st.results ∧
    ∀ d, (d ∈ (order.foldl (fun s c => sfEnter c s) st).waiters ↔
      d ∈ st.waiters ∨ d ∈ order) := by
  induction order generalizing st with
  | nil => simp [hc, hf]
  | cons c rest ih =>
    simp only [List.foldl_cons]
    have hstep : sfEnter c st = { st with waiters := c :: st.waiters } := by
      simp [sfEnter, hc, hf]
    rw [hstep]
    obtain ⟨i1, i2, i3, i4, i5⟩ := ih { st with waiters := c :: st.waiters } hc hf
    refine ⟨i1, i2, i3, i4, ?_⟩
    intro d
    rw [i5 d]
    simp only [List.mem_cons]
    tauto

/-- Claim C7 (modelled from the spec, WeatherCache single-flight): on a cold
cache, when all callers in the list order arrive for the same
(location, bucket) key before the upstream call finishes, exactly one
upstream provider call is made and every caller receives the same resulting
observation v, independent of the arrival order. -/
theorem single_flight_coalescing (n : Nat) (v : Nat) (order : List (Fin n))
    (hne : order ≠ []) :
    (sfColdRun n order v).upstreamCalls = 1 ∧
    ∀ c ∈ order, (sfColdRun n order v).results c = some v := by
  match order with
  | [] => exact absurd rfl hne
  | c :: rest =>
    unfold sfColdRun
    simp only [List.foldl_cons]
    obtain ⟨i1, i2, i3, i4, i5⟩ := sfEnter_fold_inv n rest (sfEnter c (coldState n)) rfl rfl
    constructor
    · show (List.foldl (fun s c => sfEnter c s) (sfEnter c (coldState n))
          rest).upstreamCalls = 1
      rw [i3]
      rfl
    · intro d hd
      have hdw : d ∈ (List.foldl (fun s c => sfEnter c s) (sfEnter c (coldState n))
          rest).waiters := by
        rw [i5 d]
        rcases List.mem_cons.mp hd with h | h
        · left
          rw [h]
          exact List.mem_cons_self c []
        · right
          exact h
      show (if d ∈ (List.foldl (fun s c => sfEnter c s) (sfEnter c (coldState n))
          rest).waiters then some v
        else (List.foldl (fun s c => sfEnter c s) (sfEnter c (coldState n))
          rest).results d) = some v
      rw [if_pos hdw]

/-- Claim C7 witness: two concurrent callers on a cold cache. -/
theorem single_flight_coalescing_witness :
    (sfColdRun 2 [0, 1] 7).upstreamCalls = 1 ∧
    ∀ c ∈ [(0 : Fin 2), 1], (sfColdRun 2 [0, 1] 7).results c = some 7 :=
  single_flight_coalescing 2 7 [0, 1] (by simp)

end BackendAI
